import Mathlib

/-!
Verification of `app.py`, a single-page crop-yield prediction app.

The program renders a form of nine bounded widgets, assembles a single-row
`pandas` DataFrame from the selections, loads a serialized model (pickle
first, joblib as fallback), tries `model.predict` on the raw frame, falls
back to a generic categorical-to-integer encoding when that raises, and
surfaces prediction failures to the user.

The embedding below follows `app.py` line by line:
  * `load_model`        — app.py lines 8-20
  * `build_input_form`  — app.py lines 23-52
  * `encode_if_needed`  — app.py lines 55-66 (plus a store-passing version
    `encode_if_neededS` that makes the in-place column assignments and the
    `df.copy()` calls explicit, for the non-mutation property)
  * `runSubmission`     — the submission branch of `main`, app.py lines 93-105

Python floats are modelled as rationals: the app performs no float
arithmetic, only range comparison and display. Exceptions are modelled with
`Except String`, carrying the exception message.
-/

namespace Agrithon

/-- A pandas cell value, tagged with the dtype its column receives in the
single-row `pd.DataFrame([data])` built by the form: Python strings give
`object` columns, floats give `float64`, bools give `bool`, ints give
`int64`. -/
inductive Value where
  | vStr (s : String)
  | vFloat (q : ℚ)
  | vBool (b : Bool)
  | vInt (n : ℤ)
deriving DecidableEq, Repr

/-- A single-row DataFrame: an ordered association list of column name and
the row's one cell, in the insertion order of the Python dict at
app.py lines 40-50. -/
abbrev Df : Type := List (String × Value)

/-- The pandas dtype of the column holding a given cell. -/
inductive Dtype where
  | object
  | float64
  | boolDt
  | int64
deriving DecidableEq, Repr

def dtypeOf : Value → Dtype
  | .vStr _ => .object
  | .vFloat _ => .float64
  | .vBool _ => .boolDt
  | .vInt _ => .int64

/-- A cell is numeric when its column dtype is `float64` or `int64`. -/
def isNumeric : Value → Bool
  | .vFloat _ => true
  | .vInt _ => true
  | _ => false

/-- The aggregated message of the `RuntimeError` raised at app.py
lines 17-20 when both deserialization attempts fail. -/
def aggregateMsg (pickleMsg joblibMsg : String) : String :=
  "Unable to load model. Tried pickle and joblib. Pickle error: " ++
    pickleMsg ++ (". Joblib error: " ++ joblibMsg)

/-- `load_model` (app.py lines 8-20). The arguments `pickleLoad` and
`joblibLoad` model `pickle.load` and `joblib.load` applied to the file at
the given path; `.error` is a raised exception carrying its message. -/
def load_model (pickleLoad joblibLoad : String → Except String α)
    (model_path : String) : Except String α :=
  match pickleLoad model_path with
  | .ok m => .ok m
  | .error pickle_error =>
    match joblibLoad model_path with
    | .ok m => .ok m
    | .error joblib_error => .error (aggregateMsg pickle_error joblib_error)

/-- `sub` occurs as a contiguous substring of `s`. -/
def strContains (s sub : String) : Prop := ∃ a b, s = a ++ (sub ++ b)

def regionOptions : List String := ["North", "East", "South", "West"]

def soilOptions : List String := ["Clay", "Sandy", "Loam", "Silt", "Peaty", "Chalky"]

def cropOptions : List String := ["Wheat", "Rice", "Maize", "Barley", "Soybean", "Cotton"]

def weatherOptions : List String := ["Sunny", "Rainy", "Cloudy"]

def yesNoOptions : List String := ["Yes", "No"]

/-- `st.selectbox`: the widget can only return an element of `options`; the
user's pick is modelled as an arbitrary index, reduced modulo the number of
options. -/
def selectbox (options : List String) (pick : Nat) : String :=
  options.getD (pick % options.length) ""

/-- `st.number_input` with float bounds: the widget rejects entries outside
`[lo, hi]`, so the returned value always lies in the range; an out-of-range
entry is modelled as clamped. -/
def number_input (lo hi entry : ℚ) : ℚ :=
  if entry < lo then lo else if entry > hi then hi else entry

/-- `st.number_input` with integer bounds (used for Days to Harvest). -/
def number_input_int (lo hi entry : ℤ) : ℤ :=
  if entry < lo then lo else if entry > hi then hi else entry

/-- One interaction with the form's widgets: an index pick for each
selectbox and an entered value for each number input, plus whether the
submit button was pressed. -/
structure WidgetInputs where
  regionPick : Nat
  soilPick : Nat
  cropPick : Nat
  weatherPick : Nat
  rainfallEntry : ℚ
  temperatureEntry : ℚ
  daysEntry : ℤ
  fertilizerPick : Nat
  irrigationPick : Nat
  submitted : Bool

/-- `build_input_form` (app.py lines 23-52): reads the nine widgets and
assembles the single-row frame `pd.DataFrame([data])`, with
`Fertilizer_Used` and `Irrigation_Used` computed as `selection == "Yes"`
and `Days_to_Harvest` as `int(days_to_harvest)` (the identity here, since
the integer widget already yields an integer). -/
def build_input_form (w : WidgetInputs) : Bool × Df :=
  let region := selectbox regionOptions w.regionPick
  let soil_type := selectbox soilOptions w.soilPick
  let crop := selectbox cropOptions w.cropPick
  let weather_condition := selectbox weatherOptions w.weatherPick
  let rainfall_mm := number_input 0 5000 w.rainfallEntry
  let temperature_c := number_input (-20) 60 w.temperatureEntry
  let days_to_harvest := number_input_int 30 400 w.daysEntry
  let fertilizer_used := selectbox yesNoOptions w.fertilizerPick
  let irrigation_used := selectbox yesNoOptions w.irrigationPick
  (w.submitted,
    [("Region", Value.vStr region),
     ("Soil_Type", Value.vStr soil_type),
     ("Crop", Value.vStr crop),
     ("Rainfall_mm", Value.vFloat rainfall_mm),
     ("Temperature_Celsius", Value.vFloat temperature_c),
     ("Fertilizer_Used", Value.vBool (fertilizer_used == "Yes")),
     ("Irrigation_Used", Value.vBool (irrigation_used == "Yes")),
     ("Weather_Condition", Value.vStr weather_condition),
     ("Days_to_Harvest", Value.vInt days_to_harvest)])

/-- Index of `v` in the category list `cs` (the code pandas assigns to a
category present in the list). -/
def idxIn : List String → String → Nat
  | [], _ => 0
  | c :: cs, v => if c = v then 0 else idxIn cs v + 1

/-- The categories `.astype("category")` assigns to an object column whose
cells are `vals`: the distinct values, sorted lexically. -/
def cat_categories (vals : List String) : List String :=
  List.insertionSort (· ≤ ·) vals.dedup

/-- `.cat.codes` for one cell `v` of an object column whose cells are
`vals`: the position of `v` among the sorted distinct values. -/
def cat_code (vals : List String) (v : String) : ℤ :=
  (idxIn (cat_categories vals) v : ℤ)

/-- Reading of the specified encoding, stated independently of any sorting
routine: the code of a category is the number of distinct values of the
column that are lexically below it. -/
def lexRank (vals : List String) (v : String) : ℤ :=
  (((vals.dedup).filter fun w => decide (w < v)).length : ℤ)

/-- The loop at app.py lines 61-63 on the single-row frame: every `object`
column, whose single cell is some string `s`, is replaced by its category
codes (computed from that column's values, here just `[s]`); columns of
any other dtype are untouched. -/
def encodeLoop (df : Df) : Df :=
  df.map fun p =>
    match p.2 with
    | .vStr s => (p.1, Value.vInt (cat_code [s] s))
    | _ => p

/-- `.astype(int)` on a single cell: bools become 0/1, ints stay, floats
truncate toward zero, and an object cell cannot be converted. -/
def astypeInt : Value → Option Value
  | .vBool b => some (.vInt (if b then 1 else 0))
  | .vInt n => some (.vInt n)
  | .vFloat q => some (.vInt (Int.tdiv q.num (q.den : ℤ)))
  | .vStr _ => none

/-- `df[c] = df[c].astype(int)` (app.py lines 64-65): raises `KeyError`
when the column is missing, otherwise rewrites the column in place. -/
def castColInt (df : Df) (c : String) : Except String Df :=
  match df.lookup c with
  | none => .error ("KeyError: " ++ c)
  | some v =>
    match astypeInt v with
    | none => .error ("invalid literal for int in column " ++ c)
    | some v2 => .ok (df.map fun p => if p.1 = c then (p.1, v2) else p)

/-- The fallback branch of `encode_if_needed` (app.py lines 60-65):
category-encode every object column of a copy, then cast the two boolean
columns to int. -/
def fallbackEncode (df : Df) : Except String Df :=
  match castColInt (encodeLoop df) "Fertilizer_Used" with
  | .error e => .error e
  | .ok encoded1 => castColInt encoded1 "Irrigation_Used"

/-- A loaded model's `predict` on a single-row frame, composed with the
`float(pred[0])` conversion of app.py line 97: either a yield value or a
raised exception with its message. -/
abbrev ModelFn : Type := Df → Except String ℚ

/-- `encode_if_needed` (app.py lines 55-66): probe `model.predict` on a
copy of the frame; on success return the frame itself, otherwise run the
fallback encoding (whose own `KeyError` would propagate, hence `Except`). -/
def encode_if_needed (model : ModelFn) (df : Df) : Except String Df :=
  match model df with
  | .ok _ => .ok df
  | .error _ => fallbackEncode df

/-- A heap of DataFrame objects; a Python reference is an index into it. -/
abbrev Store : Type := List Df

/-- Dereference: the frame a reference points to. -/
def readRef (s : Store) (r : Nat) : Df := (s[r]?).getD []

/-- `encode_if_needed` with Python's object semantics made explicit: the
input frame is a reference `dfRef` into the store, `df.copy()` at line 60
allocates a fresh object, and the column assignments of lines 61-65 mutate
only that fresh object. On the success path the function returns the very
reference it was given (line 58 returns `df` itself). -/
def encode_if_neededS (model : ModelFn) (s : Store) (dfRef : Nat) :
    Store × Except String Nat :=
  let df := readRef s dfRef
  match model df with
  | .ok _ => (s, .ok dfRef)
  | .error _ =>
    let encRef := s.length
    let s1 := s ++ [df]
    let s2 := s1.set encRef (encodeLoop (readRef s1 encRef))
    match castColInt (readRef s2 encRef) "Fertilizer_Used" with
    | .error e => (s2, .error e)
    | .ok d1 =>
      let s3 := s2.set encRef d1
      match castColInt (readRef s3 encRef) "Irrigation_Used" with
      | .error e => (s3, .error e)
      | .ok d2 => (s3.set encRef d2, .ok encRef)

/-- The error banner shown at app.py line 105. -/
def predictionHint : String :=
  "Prediction failed. If your model does not include preprocessing, please upload a Pipeline or share the expected preprocessing so we can align inputs."

/-- What one submission displays: either a predicted yield together with
the two inspectable tables (raw input, model input), or the caught
exception followed by the hint banner. -/
inductive Outcome where
  | success (yieldValue : ℚ) (rawShown modelShown : Df)
  | failure (err : String) (hint : String)
deriving DecidableEq, Repr

/-- The submission branch of `main` (app.py lines 93-105): align the frame
with `encode_if_needed`, predict on the result, and on any exception show
it verbatim followed by the hint banner. -/
def runSubmission (model : ModelFn) (input_df : Df) : Outcome :=
  match encode_if_needed model input_df with
  | .error e => .failure e predictionHint
  | .ok df_for_model =>
    match model df_for_model with
    | .error e => .failure e predictionHint
    | .ok y => .success y input_df df_for_model

/-- Closed form of the record the fallback encoding produces from any form
submission: the four object columns carry their category codes, the two
boolean columns their 0/1 cast, and the numeric columns are untouched. -/
def encodedForm (w : WidgetInputs) : Df :=
  [("Region", Value.vInt 0),
   ("Soil_Type", Value.vInt 0),
   ("Crop", Value.vInt 0),
   ("Rainfall_mm", Value.vFloat (number_input 0 5000 w.rainfallEntry)),
   ("Temperature_Celsius", Value.vFloat (number_input (-20) 60 w.temperatureEntry)),
   ("Fertilizer_Used",
     Value.vInt (if selectbox yesNoOptions w.fertilizerPick == "Yes" then 1 else 0)),
   ("Irrigation_Used",
     Value.vInt (if selectbox yesNoOptions w.irrigationPick == "Yes" then 1 else 0)),
   ("Weather_Condition", Value.vInt 0),
   ("Days_to_Harvest", Value.vInt (number_input_int 30 400 w.daysEntry))]

/-- The range-and-enumeration invariant of a form record: each categorical
field is drawn from its fixed option list (4 regions, 6 soils, 6 crops,
3 weather conditions) and each numeric field lies in its declared closed
range. -/
def recordInvariant (df : Df) : Prop :=
  (∃ r, df.lookup "Region" = some (Value.vStr r) ∧ r ∈ regionOptions) ∧
  (∃ t, df.lookup "Soil_Type" = some (Value.vStr t) ∧ t ∈ soilOptions) ∧
  (∃ c, df.lookup "Crop" = some (Value.vStr c) ∧ c ∈ cropOptions) ∧
  (∃ z, df.lookup "Weather_Condition" = some (Value.vStr z) ∧ z ∈ weatherOptions) ∧
  (∃ q, df.lookup "Rainfall_mm" = some (Value.vFloat q) ∧ 0 ≤ q ∧ q ≤ 5000) ∧
  (∃ q, df.lookup "Temperature_Celsius" = some (Value.vFloat q) ∧ -20 ≤ q ∧ q ≤ 60) ∧
  (∃ n, df.lookup "Days_to_Harvest" = some (Value.vInt n) ∧ 30 ≤ n ∧ n ≤ 400)

/-- The spec's scenario inputs: North / Loam / Wheat / Sunny, rainfall 800,
temperature 25, 120 days, fertilizer and irrigation both "Yes", submitted. -/
def w9 : WidgetInputs := ⟨0, 2, 0, 0, 800, 25, 120, 0, 0, true⟩

/-- A second set of widget picks differing from `w9` only in the four
categorical choices (East / Clay / Maize / Rainy). -/
def wAlt : WidgetInputs := ⟨1, 0, 2, 1, 800, 25, 120, 0, 0, true⟩

/-- A model whose `predict` raises on every input. -/
def modelFail : ModelFn := fun _ => .error "boom"

/-- A model whose `predict` succeeds on every input. -/
def modelOk : ModelFn := fun _ => .ok 4

/-- A model that raises distinct messages on the raw scenario record and on
anything else (in particular on its encoded form). -/
def modelTwoErrors : ModelFn := fun d =>
  if d = (build_input_form w9).2 then .error "raw fail" else .error "enc fail"

/-- Loaders for which both deserialization formats fail, with distinct
messages. -/
def pickleFailLoad : String → Except String Nat := fun _ => .error "PE"

def joblibFailLoad : String → Except String Nat := fun _ => .error "JE"

/-- A category column with a single cell always receives code 0. -/
theorem cat_code_singleton (s : String) : cat_code [s] s = 0 := by
  simp [cat_code, cat_categories, idxIn]

/-- On any form record the fallback encoding succeeds and produces exactly
`encodedForm`. -/
theorem fallbackEncode_form (w : WidgetInputs) :
    fallbackEncode (build_input_form w).2 = .ok (encodedForm w) := by
  simp [build_input_form, fallbackEncode, encodeLoop, castColInt, astypeInt,
    cat_code_singleton, encodedForm, List.lookup]

/-- A selectbox over a nonempty option list returns one of the options. -/
theorem selectbox_mem (options : List String) (pick : Nat) (h : options ≠ []) :
    selectbox options pick ∈ options := by
  unfold selectbox
  have hlen : 0 < options.length := List.length_pos.2 h
  have hlt : pick % options.length < options.length := Nat.mod_lt _ hlen
  rw [List.getD_eq_getElem _ _ hlt]
  exact List.getElem_mem hlt

/-- A float number input with consistent bounds returns a value in range. -/
theorem number_input_range (lo hi entry : ℚ) (h : lo ≤ hi) :
    lo ≤ number_input lo hi entry ∧ number_input lo hi entry ≤ hi := by
  unfold number_input
  split_ifs with h1 h2 <;> constructor <;> linarith

/-- An integer number input with consistent bounds returns a value in range. -/
theorem number_input_int_range (lo hi entry : ℤ) (h : lo ≤ hi) :
    lo ≤ number_input_int lo hi entry ∧ number_input_int lo hi entry ≤ hi := by
  unfold number_input_int
  split_ifs with h1 h2 <;> constructor <;> linarith

/-- In a sorted duplicate-free list, the index of an element equals the
number of elements strictly below it. -/
theorem idxIn_sorted (l : List String) (hs : l.Sorted (· ≤ ·)) (hn : l.Nodup)
    (v : String) (hv : v ∈ l) :
    idxIn l v = (l.filter fun w => decide (w < v)).length := by
  induction l with
  | nil => cases hv
  | cons a t ih =>
    rw [List.sorted_cons] at hs
    obtain ⟨ha, hst⟩ := hs
    rw [List.nodup_cons] at hn
    obtain ⟨hat, hnt⟩ := hn
    by_cases hav : a = v
    · subst hav
      have hfil : t.filter (fun w => decide (w < a)) = [] := by
        apply List.filter_eq_nil_iff.2
        intro w hw
        exact fun hdec => absurd (of_decide_eq_true hdec) (not_lt.2 (ha w hw))
      have h0 : idxIn (a :: t) a = 0 := by simp [idxIn]
      rw [h0, List.filter_cons, decide_eq_false (lt_irrefl a), if_neg Bool.false_ne_true,
        hfil]
      rfl
    · have hvt : v ∈ t := by
        rcases List.mem_cons.1 hv with hh | hh
        · exact absurd hh.symm hav
        · exact hh
      have haltv : a < v := lt_of_le_of_ne (ha v hvt) hav
      have hstep : idxIn (a :: t) v = idxIn t v + 1 := by simp [idxIn, hav]
      rw [hstep, ih hst hnt hvt, List.filter_cons, decide_eq_true haltv, if_pos rfl,
        List.length_cons]

/-- Writing through one reference leaves every other reference unchanged. -/
theorem readRef_set_ne (s : Store) (i r : Nat) (d : Df) (h : i ≠ r) :
    readRef (s.set i d) r = readRef s r := by
  unfold readRef
  rw [List.getElem?_set_ne h]

/-- Allocating a fresh object leaves existing references unchanged. -/
theorem readRef_append_lt (s : Store) (d : Df) (r : Nat) (h : r < s.length) :
    readRef (s ++ [d]) r = readRef s r := by
  unfold readRef
  rw [List.getElem?_append]
  rw [if_pos h]

/-- Claim C2: for every path, `load_model` first attempts pickle
deserialization; on any pickle failure it attempts joblib; and if both fail
it returns no partial result but a single aggregated error whose message
contains both the pickle error message and the joblib error message. -/
theorem load_model_two_stage_fallback (pickleLoad joblibLoad : String → Except String α)
    (model_path : String) :
    (∀ m, pickleLoad model_path = .ok m →
      load_model pickleLoad joblibLoad model_path = .ok m) ∧
    (∀ pe m, pickleLoad model_path = .error pe → joblibLoad model_path = .ok m →
      load_model pickleLoad joblibLoad model_path = .ok m) ∧
    (∀ pe je, pickleLoad model_path = .error pe → joblibLoad model_path = .error je →
      load_model pickleLoad joblibLoad model_path = .error (aggregateMsg pe je) ∧
      strContains (aggregateMsg pe je) pe ∧ strContains (aggregateMsg pe je) je) := by
  refine ⟨fun m hm => ?_, fun pe m hp hj => ?_, fun pe je hp hj => ⟨?_, ?_, ?_⟩⟩
  · unfold load_model
    rw [hm]
  · unfold load_model
    rw [hp, hj]
  · unfold load_model
    rw [hp, hj]
  · exact ⟨"Unable to load model. Tried pickle and joblib. Pickle error: ",
      ". Joblib error: " ++ je, by simp [aggregateMsg, String.append_assoc]⟩
  · exact ⟨"Unable to load model. Tried pickle and joblib. Pickle error: " ++
      (pe ++ ". Joblib error: "), "", by simp [aggregateMsg, String.append_assoc]⟩

/-- Witness for C2: both loaders fail and the aggregated message contains
both messages. -/
theorem load_model_two_stage_fallback_witness :
    load_model pickleFailLoad joblibFailLoad "model.pkl" = .error (aggregateMsg "PE" "JE") ∧
    strContains (aggregateMsg "PE" "JE") "PE" ∧ strContains (aggregateMsg "PE" "JE") "JE" :=
  (load_model_two_stage_fallback pickleFailLoad joblibFailLoad "model.pkl").2.2 "PE" "JE"
    rfl rfl

/-- Claim C3: when the direct `model.predict` call succeeds,
`encode_if_needed` returns the raw record itself and the fallback encoding
is never applied. -/
theorem encode_if_needed_direct_success (model : ModelFn) (df : Df) (y : ℚ)
    (h : model df = .ok y) : encode_if_needed model df = .ok df := by
  unfold encode_if_needed
  rw [h]

/-- Witness for C3: a model that accepts the raw scenario record leaves it
untouched. -/
theorem encode_if_needed_direct_success_witness :
    encode_if_needed modelOk (build_input_form w9).2 = .ok (build_input_form w9).2 :=
  encode_if_needed_direct_success modelOk (build_input_form w9).2 4 rfl

/-- Claim C4: the category code of a value present in a column equals its
position in the lexically sorted enumeration of the column's distinct
values, i.e. the number of distinct values lexically below it. -/
theorem cat_code_eq_lexRank (vals : List String) (v : String) (hv : v ∈ vals) :
    cat_code vals v = lexRank vals v := by
  unfold cat_code lexRank cat_categories
  have hperm := List.perm_insertionSort (α := String) (· ≤ ·) vals.dedup
  have hsort := List.sorted_insertionSort (α := String) (· ≤ ·) vals.dedup
  have hnd : (List.insertionSort (· ≤ ·) vals.dedup).Nodup :=
    hperm.nodup_iff.2 (List.nodup_dedup vals)
  have hvm : v ∈ List.insertionSort (· ≤ ·) vals.dedup :=
    hperm.mem_iff.2 (List.mem_dedup.2 hv)
  rw [idxIn_sorted _ hsort hnd v hvm]
  exact_mod_cast (hperm.filter (fun w => decide (w < v))).length_eq

/-- Witness for C4 at a concrete column. -/
theorem cat_code_eq_lexRank_witness :
    cat_code ["Sunny", "Rainy", "Cloudy"] "Sunny" =
      lexRank ["Sunny", "Rainy", "Cloudy"] "Sunny" :=
  cat_code_eq_lexRank ["Sunny", "Rainy", "Cloudy"] "Sunny" (by decide)

/-- Claim C7: every form submission yields a record with exactly the nine
documented fields, in order, with the documented column dtypes. -/
theorem form_record_fields_typed (w : WidgetInputs) :
    ((build_input_form w).2).map (fun p => (p.1, dtypeOf p.2)) =
      [("Region", Dtype.object), ("Soil_Type", Dtype.object), ("Crop", Dtype.object),
       ("Rainfall_mm", Dtype.float64), ("Temperature_Celsius", Dtype.float64),
       ("Fertilizer_Used", Dtype.boolDt), ("Irrigation_Used", Dtype.boolDt),
       ("Weather_Condition", Dtype.object), ("Days_to_Harvest", Dtype.int64)] := rfl

/-- Claim C9: the spec's scenario (North / Loam / Wheat / Sunny, 800 mm,
25 °C, 120 days, fertilizer and irrigation selected as "Yes") yields a
submitted record holding both flags as boolean true and Days_to_Harvest as
the integer 120. -/
theorem scenario_record :
    (build_input_form w9).1 = true ∧
    (build_input_form w9).2 =
      [("Region", Value.vStr "North"),
       ("Soil_Type", Value.vStr "Loam"),
       ("Crop", Value.vStr "Wheat"),
       ("Rainfall_mm", Value.vFloat 800),
       ("Temperature_Celsius", Value.vFloat 25),
       ("Fertilizer_Used", Value.vBool true),
       ("Irrigation_Used", Value.vBool true),
       ("Weather_Condition", Value.vStr "Sunny"),
       ("Days_to_Harvest", Value.vInt 120)] := by
  constructor
  · rfl
  · rfl

/-- Claim C1: for every form record, if the direct `model.predict` call on
the raw record raises, `encode_if_needed` returns a record in which every
object column has been replaced by its integer category code and both
boolean columns have been cast to integers (see `encodedForm`), so every
field of the returned record is numeric. -/
theorem encode_if_needed_fallback_all_numeric (model : ModelFn) (w : WidgetInputs)
    (e : String) (h : model (build_input_form w).2 = .error e) :
    encode_if_needed model (build_input_form w).2 = .ok (encodedForm w) ∧
    ∀ p ∈ encodedForm w, isNumeric p.2 = true := by
  constructor
  · unfold encode_if_needed
    rw [h]
    exact fallbackEncode_form w
  · intro p hp
    simp only [encodedForm, List.mem_cons, List.not_mem_nil, or_false] at hp
    rcases hp with hh | hh | hh | hh | hh | hh | hh | hh | hh <;> subst hh <;> rfl

/-- Witness for C1: a model raising on everything forces the fallback, and
the scenario record comes back fully numeric. -/
theorem encode_if_needed_fallback_all_numeric_witness :
    encode_if_needed modelFail (build_input_form w9).2 = .ok (encodedForm w9) ∧
    ∀ p ∈ encodedForm w9, isNumeric p.2 = true :=
  encode_if_needed_fallback_all_numeric modelFail w9 "boom" rfl

/-- Claim C5: two form records that differ only in their categorical picks
(Region, Soil_Type, Crop, Weather_Condition) get identical fallback
encodings: every one-cell object column is encoded to code 0 whatever
category was selected, so the encoded record carries no information about
the chosen categories. -/
theorem fallback_encoding_category_oblivious (w1 w2 : WidgetInputs)
    (hrain : w1.rainfallEntry = w2.rainfallEntry)
    (htemp : w1.temperatureEntry = w2.temperatureEntry)
    (hdays : w1.daysEntry = w2.daysEntry)
    (hfert : w1.fertilizerPick = w2.fertilizerPick)
    (hirr : w1.irrigationPick = w2.irrigationPick) :
    fallbackEncode (build_input_form w1).2 = fallbackEncode (build_input_form w2).2 ∧
    fallbackEncode (build_input_form w1).2 = .ok (encodedForm w1) ∧
    ∀ c ∈ (["Region", "Soil_Type", "Crop", "Weather_Condition"] : List String),
      (encodedForm w1).lookup c = some (Value.vInt 0) := by
  refine ⟨?_, fallbackEncode_form w1, ?_⟩
  · rw [fallbackEncode_form w1, fallbackEncode_form w2]
    simp [encodedForm, hrain, htemp, hdays, hfert, hirr]
  · intro c hc
    fin_cases hc <;> rfl

/-- Witness for C5: the scenario picks and four entirely different
categorical picks encode to the same record, with all four categorical
columns at code 0. -/
theorem fallback_encoding_category_oblivious_witness :
    fallbackEncode (build_input_form w9).2 = fallbackEncode (build_input_form wAlt).2 ∧
    fallbackEncode (build_input_form w9).2 = .ok (encodedForm w9) ∧
    ∀ c ∈ (["Region", "Soil_Type", "Crop", "Weather_Condition"] : List String),
      (encodedForm w9).lookup c = some (Value.vInt 0) :=
  fallback_encoding_category_oblivious w9 wAlt rfl rfl rfl rfl rfl

/-- Claim C6: when the direct prediction on the raw record and the retried
prediction on the encoded record both raise, the submission ends in the
failure outcome that shows the underlying exception verbatim together with
the pipeline hint; no prediction value is displayed and no further attempt
is made. -/
theorem submission_double_failure_surfaced (model : ModelFn) (w : WidgetInputs)
    (e1 e2 : String) (h1 : model (build_input_form w).2 = .error e1)
    (h2 : model (encodedForm w) = .error e2) :
    runSubmission model (build_input_form w).2 = .failure e2 predictionHint := by
  unfold runSubmission encode_if_needed
  rw [h1, fallbackEncode_form w]
  simp only []
  rw [h2]

/-- Witness for C6: with distinct raw-path and encoded-path errors, the
user sees the encoded-path error verbatim plus the hint. -/
theorem submission_double_failure_surfaced_witness :
    runSubmission modelTwoErrors (build_input_form w9).2 =
      .failure "enc fail" predictionHint :=
  submission_double_failure_surfaced modelTwoErrors w9 "raw fail" "enc fail"
    rfl rfl

/-- Claim C8: every form record draws its categorical fields from the fixed
enumerations (4 regions, 6 soil types, 6 crops, 3 weather conditions) and
keeps its numeric fields within the declared closed ranges:
Rainfall_mm in [0, 5000], Temperature_Celsius in [-20, 60],
Days_to_Harvest in [30, 400]. -/
theorem form_record_invariant (w : WidgetInputs) :
    recordInvariant (build_input_form w).2 := by
  refine ⟨⟨_, rfl, selectbox_mem _ _ (by decide)⟩,
    ⟨_, rfl, selectbox_mem _ _ (by decide)⟩,
    ⟨_, rfl, selectbox_mem _ _ (by decide)⟩,
    ⟨_, rfl, selectbox_mem _ _ (by decide)⟩,
    ⟨_, rfl, (number_input_range 0 5000 w.rainfallEntry (by norm_num)).1,
      (number_input_range 0 5000 w.rainfallEntry (by norm_num)).2⟩,
    ⟨_, rfl, (number_input_range (-20) 60 w.temperatureEntry (by norm_num)).1,
      (number_input_range (-20) 60 w.temperatureEntry (by norm_num)).2⟩,
    ⟨_, rfl, (number_input_int_range 30 400 w.daysEntry (by norm_num)).1,
      (number_input_int_range 30 400 w.daysEntry (by norm_num)).2⟩⟩

/-- Claim C10: `encode_if_needed` never mutates the frame it is given:
whether the direct prediction succeeds (the same reference is returned) or
the fallback runs (only the fresh copy is written to), the input reference
still holds its original record afterwards, so the raw-input table shown
later displays the unencoded submission. -/
theorem encode_if_needed_no_mutation (model : ModelFn) (s : Store) (r : Nat)
    (h : r < s.length) :
    readRef (encode_if_neededS model s r).1 r = readRef s r := by
  have hne : s.length ≠ r := (Nat.ne_of_lt h).symm
  have hap : ∀ d : Df, readRef (s ++ [d]) r = readRef s r :=
    fun d => readRef_append_lt s d r h
  unfold encode_if_neededS
  dsimp only
  split
  · rfl
  · split
    · rw [readRef_set_ne _ _ _ _ hne, hap]
    · split
      · rw [readRef_set_ne _ _ _ _ hne, readRef_set_ne _ _ _ _ hne, hap]
      · rw [readRef_set_ne _ _ _ _ hne, readRef_set_ne _ _ _ _ hne,
          readRef_set_ne _ _ _ _ hne, hap]

/-- Witness for C10: the scenario record survives a fallback-encoding run
unchanged in the store. -/
theorem encode_if_needed_no_mutation_witness :
    readRef (encode_if_neededS modelFail [(build_input_form w9).2] 0).1 0 =
      readRef [(build_input_form w9).2] 0 :=
  encode_if_needed_no_mutation modelFail [(build_input_form w9).2] 0 (by decide)

end Agrithon
